import Mathlib

/-!
Shallow embedding of `bot.py` (a Telegram bot that stores a user's transit
card number in SQLite and queries its balance over HTTP), together with
proofs of the behavioural claims about it.

Modelling conventions:
* A decoded Python/JSON value is the inductive type `Json` below.  JSON
  numbers are modelled as integers (every payload the program's claims
  touch is integral); Python's `bool` is kept separate but, as in Python,
  counts as numeric for `isinstance(x, (int, float))`.
* The SQLite table `user_cards (user_id PRIMARY KEY, card_number, created_at,
  updated_at)` is a `List UserCardRecord`; `CURRENT_TIMESTAMP` becomes an
  explicit `now : Nat` argument.  The `INSERT ... ON CONFLICT(user_id) DO
  UPDATE` upsert updates the matching row in place, otherwise appends.
* Telegram handlers are pure functions from the storage state and command
  arguments to (new state, reply); the network in `/balance` is an oracle
  argument, and the handler also returns the list of card numbers it
  fetched, so that "no network call" is expressible.
* The handlers' initial guards (`update.message is None`, `user is None`,
  `storage is None`) are outside the modelled behaviour: they abort before
  any of the claimed logic runs.
-/

/-- A decoded JSON document as Python's `json` module produces it:
`None`, `bool`, numbers (modelled integral), `str`, `list`, `dict`. -/
inductive Json where
  | null : Json
  | bool (b : Bool) : Json
  | num (n : Int) : Json
  | str (s : String) : Json
  | arr (elems : List Json) : Json
  | obj (fields : List (String × Json)) : Json

/-- Is the value a Python `dict` (`isinstance(x, dict)`)? -/
def Json.isObj : Json → Bool
  | .obj _ => true
  | _ => false

/-- Field lookup on an object, `d.get(k)` returning `None` as `none`
(objects model Python dicts, whose keys are unique). -/
def jsonGet (j : Json) (k : String) : Option Json :=
  match j with
  | .obj fields =>
    match fields.find? (fun p => p.1 == k) with
    | some p => some p.2
    | none => none
  | _ => none

/-- `isinstance(x, (int, float))` — in Python `bool` is a subclass of
`int`, so booleans count as numeric. -/
def isNumericJson : Json → Bool
  | .num _ => true
  | .bool _ => true
  | _ => false

/-- Python `int(x)` on a numeric value (`int` or `bool`). -/
def pyInt : Json → Int
  | .num n => n
  | .bool b => if b then 1 else 0
  | _ => 0

/-- Python truthiness `bool(x)` of a decoded JSON value. -/
def jsonTruthy : Json → Bool
  | .null => false
  | .bool b => b
  | .num n => n != 0
  | .str s => !s.isEmpty
  | .arr elems => !elems.isEmpty
  | .obj fields => !fields.isEmpty

/-- Truthiness of `d.get(k)`: `None` (absent key) is falsy. -/
def optTruthy : Option Json → Bool
  | none => false
  | some j => jsonTruthy j

mutual

/-- Python `repr` of a decoded JSON value (used by `str` on containers). -/
def pyRepr : Json → String
  | .null => "None"
  | .bool true => "True"
  | .bool false => "False"
  | .num n => toString n
  | .str s => "\x27" ++ s ++ "\x27"
  | .arr elems => "[" ++ pyReprArr elems ++ "]"
  | .obj fields => "\x7b" ++ pyReprObj fields ++ "\x7d"

/-- Comma-separated `repr`s of list elements. -/
def pyReprArr : List Json → String
  | [] => ""
  | [x] => pyRepr x
  | x :: xs => pyRepr x ++ ", " ++ pyReprArr xs

/-- Comma-separated `repr`s of dict entries. -/
def pyReprObj : List (String × Json) → String
  | [] => ""
  | [(k, v)] => "\x27" ++ k ++ "\x27: " ++ pyRepr v
  | (k, v) :: fs => "\x27" ++ k ++ "\x27: " ++ pyRepr v ++ ", " ++ pyReprObj fs

end

/-- Python `str(x)` of a decoded JSON value, as an f-string interpolates it. -/
def pyStr : Json → String
  | .null => "None"
  | .bool true => "True"
  | .bool false => "False"
  | .num n => toString n
  | .str s => s
  | .arr elems => pyRepr (.arr elems)
  | .obj fields => pyRepr (.obj fields)

/-- `d.get(k)` collapsed to `none` when the stored value is JSON null —
Python's `d.get(k)` returns `None` both for an absent key and a null
value, and the parser only tests `is not None`. -/
def getNonNull (j : Json) (k : String) : Option Json :=
  match jsonGet j k with
  | some .null => none
  | some v => some v
  | none => none

/-- The balance rendered by the f-string `f"{balance_raw / 100:.2f}"`:
the exact decimal expansion of `n / 100` with two digits after the point
(Python computes it in floating point, exact on the payloads at issue). -/
def fmt2 (n : Int) : String :=
  let sign := if n < 0 then "-" else ""
  let m := n.natAbs
  let r := m % 100
  sign ++ toString (m / 100) ++ "." ++ (if r < 10 then "0" ++ toString r else toString r)

/-- The report body built from the effective record (`card` in the source):
lines for balance, active flag, blocked flag, trip count, mirroring
`parse_status_response` after its `card = ...` selection. -/
def renderRecord (card : Json) : String :=
  let balance_raw := getNonNull card "balance"
  let card_active := getNonNull card "cardactive"
  let card_blocked := getNonNull card "cardblocked"
  let trips := getNonNull card "numoftrips"
  let lines := ["Информация по карте:"]
  let lines := lines ++
    (match balance_raw with
     | some b =>
       if isNumericJson b then
         ["Баланс: " ++ fmt2 (pyInt b) ++ " руб. (" ++ toString (pyInt b) ++ " коп.)"]
       else
         ["Баланс: " ++ pyStr b]
     | none => [])
  let lines := lines ++
    (match card_active with
     | some a => ["Карта активна: " ++ (if jsonTruthy a then "да" else "нет")]
     | none => [])
  let lines := lines ++
    (match card_blocked with
     | some b => ["Карта заблокирована: " ++ (if jsonTruthy b then "да" else "нет")]
     | none => [])
  let lines := lines ++
    (match trips with
     | some t => ["Поездок: " ++ pyStr t]
     | none => [])
  let lines :=
    if lines.length == 1 then
      lines ++ ["API не вернуло ожидаемые поля (balance/cardactive/cardblocked)."]
    else lines
  String.intercalate "\n" lines

/-- The record the fields are read from:
`card = data.get("card") if isinstance(data.get("card"), dict) else data`. -/
def effectiveRecord (data : Json) : Json :=
  match jsonGet data "card" with
  | some c => if c.isObj then c else data
  | none => data

/-- `parse_status_response(data)`: raises `ValueError` (modelled
`Except.error`) on a non-dict top level, otherwise renders the nested
`"card"` dict if there is one, else the top-level dict itself. -/
def parse_status_response (data : Json) : Except String String :=
  match data with
  | .obj _ => Except.ok (renderRecord (effectiveRecord data))
  | _ => Except.error "Непредвиденный формат ответа API"

/-- `fetch_card_status` after the HTTP layer: given the decoded JSON body,
surface a truthy top-level `error`/`message` field as an API-error string
(Python `error = data.get("error") or data.get("message"); if error:`),
otherwise normalize via `parse_status_response`. -/
def fetch_card_status_body (data : Json) : Except String String :=
  match data with
  | .obj _ =>
    let error :=
      if optTruthy (jsonGet data "error") then jsonGet data "error"
      else jsonGet data "message"
    match error with
    | some e =>
      if jsonTruthy e then Except.ok ("Ошибка API: " ++ pyStr e)
      else parse_status_response data
    | none => parse_status_response data
  | _ => parse_status_response data

/-- One row of the SQLite table `user_cards`; `user_id` is the primary
key, the timestamp columns are abstract ticks. -/
structure UserCardRecord where
  user_id : Int
  card_number : String
  created_at : Nat
  updated_at : Nat

/-- `Storage.set_user_card`: the `INSERT ... ON CONFLICT(user_id) DO UPDATE
SET card_number=excluded.card_number, updated_at=CURRENT_TIMESTAMP` upsert.
A conflicting row keeps its `created_at` and gets the new card number and
`updated_at`; otherwise a fresh row is inserted. -/
def set_user_card (db : List UserCardRecord) (user_id : Int) (card_number : String)
    (now : Nat) : List UserCardRecord :=
  if db.any (fun r => r.user_id == user_id) then
    db.map (fun r =>
      if r.user_id == user_id then
        { r with card_number := card_number, updated_at := now }
      else r)
  else
    db ++ [⟨user_id, card_number, now, now⟩]

/-- `Storage.get_user_card`: `SELECT card_number FROM user_cards WHERE
user_id = ?`, `none` when no row matches. -/
def get_user_card (db : List UserCardRecord) (user_id : Int) : Option String :=
  (db.find? (fun r => r.user_id == user_id)).map (fun r => r.card_number)

/-- Python `str.isdigit()` on the card-number alphabet the bot is meant
to accept (ASCII decimal digits): false on the empty string. -/
def pyIsdigit (s : String) : Bool :=
  !s.data.isEmpty && s.data.all Char.isDigit

/-- Character-list core of Python `str.strip()`: drop whitespace from both
ends. -/
def stripChars (l : List Char) : List Char :=
  ((l.dropWhile Char.isWhitespace).reverse.dropWhile Char.isWhitespace).reverse

/-- Python `str.strip()`. -/
def pyStrip (s : String) : String :=
  String.mk (stripChars s.data)

/-- Python `"".join(args)`. -/
def pyJoin (args : List String) : String :=
  String.mk (args.map String.data).flatten

/-- The `/setcard` handler `set_card` after its message/user/storage
guards: empty argument list → usage message; concatenated-and-stripped
argument not all digits → rejection; otherwise upsert and confirm.
Returns (new storage state, reply text). -/
def set_card (db : List UserCardRecord) (user_id : Int) (args : List String)
    (now : Nat) : List UserCardRecord × String :=
  if args.isEmpty then
    (db, "Использование: /setcard <номер_карты>")
  else
    let card_number := pyStrip (pyJoin args)
    if pyIsdigit card_number then
      (set_user_card db user_id card_number now, "Карта сохранена: " ++ card_number)
    else
      (db, "Номер карты должен содержать только цифры.")

/-- Outcome of the HTTP GET in `fetch_card_status`, as the `/balance`
handler's `try/except` distinguishes it: a decoded JSON body, an
`HTTPError` from `raise_for_status`, or any other `RequestException`. -/
inductive FetchOutcome where
  | success (data : Json) : FetchOutcome
  | httpError (e : String) : FetchOutcome
  | requestError (e : String) : FetchOutcome

/-- The `/balance` handler `balance` after its guards: look up the stored
card; absent (or empty) → prompt and no fetch; otherwise acknowledge,
fetch via the network oracle and map each failure class to its message.
Returns (replies in order, card numbers fetched over the network). -/
def balance (db : List UserCardRecord) (user_id : Int)
    (oracle : String → FetchOutcome) : List String × List String :=
  match get_user_card db user_id with
  | none => (["Карта не сохранена. Сначала выполните /setcard <номер_карты>"], [])
  | some card_number =>
    if card_number.isEmpty then
      (["Карта не сохранена. Сначала выполните /setcard <номер_карты>"], [])
    else
      match oracle card_number with
      | .httpError e =>
        (["Запрашиваю данные по карте...", "Ошибка HTTP: " ++ e], [card_number])
      | .requestError e =>
        (["Запрашиваю данные по карте...", "Ошибка запроса: " ++ e], [card_number])
      | .success data =>
        match fetch_card_status_body data with
        | .ok text =>
          (["Запрашиваю данные по карте...", text], [card_number])
        | .error e =>
          (["Запрашиваю данные по карте...", "Ошибка формата ответа: " ++ e], [card_number])

/-- The storage invariant of the table: the primary key makes user ids
pairwise distinct. -/
def UniqueUsers (db : List UserCardRecord) : Prop :=
  db.Pairwise (fun a b => a.user_id ≠ b.user_id)

/-- Every stored card number passed validation: non-empty, all digits. -/
def AllDigitCards (db : List UserCardRecord) : Prop :=
  ∀ r ∈ db, pyIsdigit r.card_number = true

/-- Storage states reachable from the fresh database (`_init_db` creates
an empty table) by `/setcard` invocations — the only flow that writes. -/
inductive Reachable : List UserCardRecord → Prop where
  | init : Reachable []
  | step (db : List UserCardRecord) (user_id : Int) (args : List String) (now : Nat) :
      Reachable db → Reachable (set_card db user_id args now).1

/-- The upsert's per-row update never changes the row's key. -/
theorem user_id_upd (r : UserCardRecord) (u : Int) (c : String) (t : Nat) :
    (if r.user_id == u then { r with card_number := c, updated_at := t } else r).user_id
      = r.user_id := by
  split <;> rfl

/-- After an upsert, looking up the upserted user yields the new card. -/
theorem get_user_card_set_same (db : List UserCardRecord) (u : Int) (c : String) (t : Nat) :
    get_user_card (set_user_card db u c t) u = some c := by
  unfold set_user_card get_user_card
  split
  case isTrue h =>
    rw [List.find?_map]
    have hcomp : ((fun r : UserCardRecord => r.user_id == u) ∘
        (fun r : UserCardRecord =>
          if r.user_id == u then { r with card_number := c, updated_at := t } else r))
        = fun r : UserCardRecord => r.user_id == u := by
      funext r
      simp only [Function.comp_apply]
      rw [user_id_upd]
    rw [hcomp]
    obtain ⟨r, hr, hpr⟩ := List.any_eq_true.mp h
    cases hfind : db.find? (fun r : UserCardRecord => r.user_id == u) with
    | none =>
      rw [List.find?_eq_none] at hfind
      exact absurd hpr (hfind r hr)
    | some s =>
      have hps := List.find?_some hfind
      have hsu : s.user_id = u := by simpa using hps
      simp [hsu]
  case isFalse h =>
    rw [List.find?_append]
    have hnone : db.find? (fun r : UserCardRecord => r.user_id == u) = none := by
      rw [List.find?_eq_none]
      intro x hx hpx
      exact h (List.any_eq_true.mpr ⟨x, hx, hpx⟩)
    simp [hnone]

/-- Frame property of the upsert: other users' lookups are untouched. -/
theorem get_user_card_set_other (db : List UserCardRecord) (a b : Int) (c : String)
    (t : Nat) (hne : a ≠ b) :
    get_user_card (set_user_card db a c t) b = get_user_card db b := by
  unfold set_user_card get_user_card
  split
  case isTrue h =>
    rw [List.find?_map]
    have hcomp : ((fun r : UserCardRecord => r.user_id == b) ∘
        (fun r : UserCardRecord =>
          if r.user_id == a then { r with card_number := c, updated_at := t } else r))
        = fun r : UserCardRecord => r.user_id == b := by
      funext r
      simp only [Function.comp_apply]
      rw [user_id_upd]
    rw [hcomp]
    cases hfind : db.find? (fun r : UserCardRecord => r.user_id == b) with
    | none => simp
    | some s =>
      have hps := List.find?_some hfind
      have hsb : s.user_id = b := by simpa using hps
      have hsa : ¬ s.user_id = a := by
        rw [hsb]
        exact fun hh => hne hh.symm
      simp [hsa]
  case isFalse h =>
    rw [List.find?_append]
    have hsing : ([⟨a, c, t, t⟩] : List UserCardRecord).find?
        (fun r : UserCardRecord => r.user_id == b) = none := by
      simp only [List.find?_singleton]
      have : ((⟨a, c, t, t⟩ : UserCardRecord).user_id == b) = false := by
        simpa using hne
      simp [this]
    simp [hsing]

/-- In a table with pairwise-distinct user ids, a user who appears at all
appears in exactly one row. -/
theorem countP_eq_one_of_unique (db : List UserCardRecord) (u : Int)
    (hu : UniqueUsers db) (h : db.any (fun r => r.user_id == u) = true) :
    db.countP (fun r => r.user_id == u) = 1 := by
  induction db with
  | nil => simp at h
  | cons r rs ih =>
    have hu2 := List.pairwise_cons.mp hu
    by_cases hr : r.user_id = u
    · have hzero : rs.countP (fun r => r.user_id == u) = 0 := by
        rw [List.countP_eq_zero]
        intro x hx
        simp only [beq_iff_eq]
        rw [← hr]
        exact fun hh => (hu2.1 x hx) hh.symm
      rw [List.countP_cons, hzero]
      simp [hr]
    · have hr2 : (r.user_id == u) = false := by simp [hr]
      rw [List.countP_cons, hr2]
      simp only [List.any_cons, hr2, Bool.false_or] at h
      simpa using ih hu2.2 h

/-- An upsert into a table with the primary-key invariant leaves exactly
one row for the upserted user. -/
theorem countP_set_user_card (db : List UserCardRecord) (u : Int) (c : String) (t : Nat)
    (hu : UniqueUsers db) :
    (set_user_card db u c t).countP (fun r => r.user_id == u) = 1 := by
  unfold set_user_card
  split
  case isTrue h =>
    rw [List.countP_map]
    have hcomp : ((fun r : UserCardRecord => r.user_id == u) ∘
        (fun r : UserCardRecord =>
          if r.user_id == u then { r with card_number := c, updated_at := t } else r))
        = fun r : UserCardRecord => r.user_id == u := by
      funext r
      simp only [Function.comp_apply]
      rw [user_id_upd]
    rw [hcomp]
    exact countP_eq_one_of_unique db u hu h
  case isFalse h =>
    rw [List.countP_append]
    have h0 : db.countP (fun r : UserCardRecord => r.user_id == u) = 0 := by
      rw [List.countP_eq_zero]
      intro x hx hpx
      exact h (List.any_eq_true.mpr ⟨x, hx, hpx⟩)
    simp [h0, List.countP_cons]

/-- The upsert preserves the primary-key invariant. -/
theorem uniqueUsers_set_user_card (db : List UserCardRecord) (u : Int) (c : String)
    (t : Nat) (hu : UniqueUsers db) :
    UniqueUsers (set_user_card db u c t) := by
  unfold set_user_card
  split
  case isTrue h =>
    unfold UniqueUsers at hu ⊢
    rw [List.pairwise_map]
    refine hu.imp ?_
    intro x y hxy
    rw [user_id_upd, user_id_upd]
    exact hxy
  case isFalse h =>
    unfold UniqueUsers at hu ⊢
    rw [List.pairwise_append]
    refine ⟨hu, by simp, ?_⟩
    intro x hx y hy
    simp only [List.mem_singleton] at hy
    subst hy
    intro hxy
    exact h (List.any_eq_true.mpr ⟨x, hx, by simp [hxy]⟩)

/-- The upsert preserves "every stored card number is a digit string",
provided the new card number is one. -/
theorem allDigitCards_set_user_card (db : List UserCardRecord) (u : Int) (c : String)
    (t : Nat) (hd : AllDigitCards db) (hc : pyIsdigit c = true) :
    AllDigitCards (set_user_card db u c t) := by
  intro r hr
  unfold set_user_card at hr
  split at hr
  case isTrue h =>
    obtain ⟨s, hs, rfl⟩ := List.mem_map.mp hr
    by_cases hsu : s.user_id = u
    · simp [hsu, hc]
    · simpa [hsu] using hd s hs
  case isFalse h =>
    rcases List.mem_append.mp hr with h1 | h1
    · exact hd r h1
    · simp only [List.mem_singleton] at h1
      subst h1
      exact hc

/-- The upsert never drops a user's row. -/
theorem set_user_card_preserves_users (db : List UserCardRecord) (u : Int) (c : String)
    (t : Nat) (r : UserCardRecord) (hr : r ∈ db) :
    ∃ s, s ∈ set_user_card db u c t ∧ s.user_id = r.user_id := by
  unfold set_user_card
  split
  · exact ⟨_, List.mem_map_of_mem _ hr, user_id_upd r u c t⟩
  · exact ⟨r, List.mem_append.mpr (Or.inl hr), rfl⟩

/-- The `/setcard` handler never drops a user's row either. -/
theorem set_card_never_deletes (db : List UserCardRecord) (user_id : Int)
    (args : List String) (now : Nat) (r : UserCardRecord) (hr : r ∈ db) :
    ∃ s, s ∈ (set_card db user_id args now).1 ∧ s.user_id = r.user_id := by
  unfold set_card
  split
  · exact ⟨r, hr, rfl⟩
  · dsimp only
    split
    · exact set_user_card_preserves_users db user_id _ now r hr
    · exact ⟨r, hr, rfl⟩

/-- `dropWhile` is the identity on a list with no whitespace. -/
theorem dropWhile_ws_eq_self (l : List Char)
    (h : ∀ ch ∈ l, ch.isWhitespace = false) :
    l.dropWhile Char.isWhitespace = l := by
  cases l with
  | nil => rfl
  | cons a l =>
    rw [List.dropWhile_cons]
    simp [h a (List.mem_cons_self a l)]

/-- Stripping a list with no whitespace is the identity. -/
theorem stripChars_eq_self (l : List Char)
    (h : ∀ ch ∈ l, ch.isWhitespace = false) :
    stripChars l = l := by
  unfold stripChars
  rw [dropWhile_ws_eq_self l h,
    dropWhile_ws_eq_self l.reverse (fun ch hch => h ch (List.mem_reverse.mp hch)),
    List.reverse_reverse]

/-- Telegram's argument tokens contain no whitespace (the framework splits
on it), so `"".join(args).strip()` is just the concatenation. -/
theorem pyStrip_pyJoin_eq (args : List String)
    (hnw : ∀ s ∈ args, ∀ ch ∈ s.data, ch.isWhitespace = false) :
    pyStrip (pyJoin args) = pyJoin args := by
  unfold pyStrip pyJoin
  congr 1
  apply stripChars_eq_self
  intro ch hch
  have hmem : ch ∈ (args.map String.data).flatten := hch
  obtain ⟨l, hl, hcl⟩ := List.mem_flatten.mp hmem
  obtain ⟨s, hs, rfl⟩ := List.mem_map.mp hl
  exact hnw s hs ch hcl

/-- C1: for every user id and digit-only card number, `set_user_card` then
`get_user_card` for the same user returns exactly that number; a second
`set_user_card` with another number overwrites it, and (given the
primary-key invariant) exactly one row for that user remains. -/
theorem c1_set_then_get_roundtrip (db : List UserCardRecord) (u : Int)
    (n₁ n₂ : String) (t₁ t₂ : Nat)
    (_hd₁ : pyIsdigit n₁ = true) (_hd₂ : pyIsdigit n₂ = true)
    (hu : UniqueUsers db) :
    get_user_card (set_user_card db u n₁ t₁) u = some n₁
    ∧ get_user_card (set_user_card (set_user_card db u n₁ t₁) u n₂ t₂) u = some n₂
    ∧ (set_user_card (set_user_card db u n₁ t₁) u n₂ t₂).countP
        (fun r => r.user_id == u) = 1 := by
  refine ⟨get_user_card_set_same db u n₁ t₁,
    get_user_card_set_same _ u n₂ t₂, ?_⟩
  exact countP_set_user_card _ u n₂ t₂ (uniqueUsers_set_user_card db u n₁ t₁ hu)

/-- Witness for C1 on a concrete store. -/
theorem c1_witness :
    get_user_card (set_user_card [] 7 "1234" 0) 7 = some "1234"
    ∧ get_user_card (set_user_card (set_user_card [] 7 "1234" 0) 7 "5678" 1) 7 = some "5678"
    ∧ (set_user_card (set_user_card [] 7 "1234" 0) 7 "5678" 1).countP
        (fun r => r.user_id == 7) = 1 :=
  c1_set_then_get_roundtrip [] 7 "1234" "5678" 0 1 (by decide) (by decide) List.Pairwise.nil

/-- C10: upserting user `a`'s card never changes what user `b ≠ a` reads. -/
theorem c10_per_user_isolation (db : List UserCardRecord) (a b : Int) (n : String)
    (t : Nat) (hne : a ≠ b) :
    get_user_card (set_user_card db a n t) b = get_user_card db b :=
  get_user_card_set_other db a b n t hne

/-- Witness for C10 on a concrete store. -/
theorem c10_witness :
    get_user_card (set_user_card [⟨2, "99", 0, 0⟩] 1 "1234" 5) 2 =
      get_user_card [⟨2, "99", 0, 0⟩] 2 :=
  c10_per_user_isolation [⟨2, "99", 0, 0⟩] 1 2 "1234" 5 (by decide)

/-- C7: a `/setcard` invocation whose concatenated arguments are not a
non-empty digit string (its tokens being whitespace-free, as Telegram
delivers them) is rejected with a usage or digits-only message and leaves
the storage — hence every user's lookup — unchanged. -/
theorem c7_reject_nondigit_no_mutation (db : List UserCardRecord) (user_id : Int)
    (args : List String) (now : Nat)
    (hnw : ∀ s ∈ args, ∀ ch ∈ s.data, ch.isWhitespace = false)
    (hbad : pyIsdigit (pyJoin args) = false) :
    (set_card db user_id args now).1 = db
    ∧ (∀ u, get_user_card (set_card db user_id args now).1 u = get_user_card db u)
    ∧ ((set_card db user_id args now).2 = "Использование: /setcard <номер_карты>"
       ∨ (set_card db user_id args now).2 = "Номер карты должен содержать только цифры.") := by
  have hstrip := pyStrip_pyJoin_eq args hnw
  unfold set_card
  by_cases he : args.isEmpty
  · simp [he]
  · simp [he, hstrip, hbad]

/-- Witness for C7 on a concrete invocation. -/
theorem c7_witness :
    (set_card [] 3 ["12a4"] 0).1 = ([] : List UserCardRecord)
    ∧ (∀ u, get_user_card (set_card [] 3 ["12a4"] 0).1 u = get_user_card [] u)
    ∧ ((set_card [] 3 ["12a4"] 0).2 = "Использование: /setcard <номер_карты>"
       ∨ (set_card [] 3 ["12a4"] 0).2 = "Номер карты должен содержать только цифры.") :=
  c7_reject_nondigit_no_mutation [] 3 ["12a4"] 0 (by decide) (by decide)

/-- C8: in every storage state reachable by the bot's only writing flow
(`/setcard` on the initially empty table), user ids are pairwise distinct
(one row per user), every stored card number is a non-empty digit string,
and a further `/setcard` step never drops anybody's row. -/
theorem c8_storage_invariant (db : List UserCardRecord) (h : Reachable db) :
    UniqueUsers db ∧ AllDigitCards db
    ∧ ∀ user_id args now r, r ∈ db →
        ∃ s, s ∈ (set_card db user_id args now).1 ∧ s.user_id = r.user_id := by
  induction h with
  | init =>
    exact ⟨List.Pairwise.nil, fun r hr => absurd hr (List.not_mem_nil r),
      fun user_id args now r hr => absurd hr (List.not_mem_nil r)⟩
  | step db user_id args now hdb ih =>
    obtain ⟨hu, hd, -⟩ := ih
    refine ⟨?_, ?_, fun uid a n r hr => set_card_never_deletes _ uid a n r hr⟩
    · unfold set_card
      split
      · exact hu
      · dsimp only
        split
        · exact uniqueUsers_set_user_card db user_id _ now hu
        · exact hu
    · unfold set_card
      split
      · exact hd
      · dsimp only
        split
        case isTrue hc => exact allDigitCards_set_user_card db user_id _ now hd hc
        case isFalse hc => exact hd

/-- Witness for C8 after one concrete `/setcard` step. -/
theorem c8_witness :
    UniqueUsers (set_card [] 5 ["1234"] 0).1
    ∧ AllDigitCards (set_card [] 5 ["1234"] 0).1 :=
  have h := c8_storage_invariant (set_card [] 5 ["1234"] 0).1
    (Reachable.step [] 5 ["1234"] 0 Reachable.init)
  ⟨h.1, h.2.1⟩

/-- C9: `/balance` for a user with no stored card replies only with the
"not set" prompt and fetches nothing over the network. -/
theorem c9_balance_without_card_no_fetch (db : List UserCardRecord) (user_id : Int)
    (oracle : String → FetchOutcome) (h : get_user_card db user_id = none) :
    balance db user_id oracle =
      (["Карта не сохранена. Сначала выполните /setcard <номер_карты>"], []) := by
  unfold balance
  rw [h]

/-- Witness for C9 on the empty store. -/
theorem c9_witness :
    balance [] 3 (fun _ => FetchOutcome.success Json.null) =
      (["Карта не сохранена. Сначала выполните /setcard <номер_карты>"], []) :=
  c9_balance_without_card_no_fetch [] 3 _ rfl

/-- C3: on the nested payload with balance 12345, active true, blocked
false, 7 trips, the report carries exactly the four specified lines:
the balance as value/100 to two decimals plus the raw minor units,
localized yes/no flags, and the verbatim trip count. -/
theorem c3_nested_payload_report :
    parse_status_response
      (Json.obj [("card", Json.obj
        [("balance", Json.num 12345), ("cardactive", Json.bool true),
         ("cardblocked", Json.bool false), ("numoftrips", Json.num 7)])]) =
    Except.ok ("Информация по карте:" ++ "\n" ++
      "Баланс: 123.45 руб. (12345 коп.)" ++ "\n" ++
      "Карта активна: да" ++ "\n" ++
      "Карта заблокирована: нет" ++ "\n" ++
      "Поездок: 7") := rfl

/-- C4: the parser tolerates both payload shapes — a nested `"card"` dict
is used as the record when present, the top-level dict otherwise — and on
the flat `{"balance": 0}` payload still renders the balance line. -/
theorem c4_two_payload_shapes (fs : List (String × Json)) :
    (∀ c, jsonGet (Json.obj fs) "card" = some c → c.isObj = true →
      parse_status_response (Json.obj fs) = Except.ok (renderRecord c))
    ∧ ((∀ c, jsonGet (Json.obj fs) "card" = some c → c.isObj = false) →
      parse_status_response (Json.obj fs) = Except.ok (renderRecord (Json.obj fs)))
    ∧ parse_status_response (Json.obj [("balance", Json.num 0)]) =
      Except.ok ("Информация по карте:" ++ "\n" ++ "Баланс: 0.00 руб. (0 коп.)") := by
  refine ⟨?_, ?_, rfl⟩
  · intro c hc hobj
    show Except.ok (renderRecord (effectiveRecord (Json.obj fs))) = _
    unfold effectiveRecord
    rw [hc]
    dsimp only
    rw [hobj]
    simp
  · intro hno
    show Except.ok (renderRecord (effectiveRecord (Json.obj fs))) = _
    unfold effectiveRecord
    cases hc : jsonGet (Json.obj fs) "card" with
    | none => rfl
    | some c =>
      dsimp only
      rw [hno c hc]
      simp

/-- Witness for C4: a nested record is rendered in place of the top level. -/
theorem c4_witness :
    parse_status_response (Json.obj [("card", Json.obj [("balance", Json.num 5)])]) =
      Except.ok (renderRecord (Json.obj [("balance", Json.num 5)])) :=
  (c4_two_payload_shapes [("card", Json.obj [("balance", Json.num 5)])]).1
    (Json.obj [("balance", Json.num 5)]) rfl rfl

/-- C5 counterexample: the payload `{"card": {"balance": 12345}}` has none
of the four fields at the top level, yet the parser reports a balance line
rather than the header plus the "no expected fields" explanation. -/
theorem c5_counterexample :
    jsonGet (Json.obj [("card", Json.obj [("balance", Json.num 12345)])]) "balance" = none
    ∧ jsonGet (Json.obj [("card", Json.obj [("balance", Json.num 12345)])]) "cardactive" = none
    ∧ jsonGet (Json.obj [("card", Json.obj [("balance", Json.num 12345)])]) "cardblocked" = none
    ∧ jsonGet (Json.obj [("card", Json.obj [("balance", Json.num 12345)])]) "numoftrips" = none
    ∧ parse_status_response (Json.obj [("card", Json.obj [("balance", Json.num 12345)])]) =
        Except.ok ("Информация по карте:" ++ "\n" ++ "Баланс: 123.45 руб. (12345 коп.)")
    ∧ ("Информация по карте:" ++ "\n" ++ "Баланс: 123.45 руб. (12345 коп.)")
        ≠ ("Информация по карте:" ++ "\n" ++
           "API не вернуло ожидаемые поля (balance/cardactive/cardblocked).") :=
  ⟨rfl, rfl, rfl, rfl, rfl, by decide⟩

/-- C5 as amended: whenever the record the parser actually reads — the
nested `"card"` dict if there is one, else the top-level dict — has none
of the four fields, the result is exactly the header plus the single
"no expected fields" line, not an error. -/
theorem c5_no_expected_fields (fs : List (String × Json))
    (hb : jsonGet (effectiveRecord (Json.obj fs)) "balance" = none)
    (ha : jsonGet (effectiveRecord (Json.obj fs)) "cardactive" = none)
    (hbl : jsonGet (effectiveRecord (Json.obj fs)) "cardblocked" = none)
    (ht : jsonGet (effectiveRecord (Json.obj fs)) "numoftrips" = none) :
    parse_status_response (Json.obj fs) =
      Except.ok ("Информация по карте:" ++ "\n" ++
        "API не вернуло ожидаемые поля (balance/cardactive/cardblocked).") := by
  show Except.ok (renderRecord (effectiveRecord (Json.obj fs))) = _
  unfold renderRecord getNonNull
  rw [hb, ha, hbl, ht]
  rfl

/-- Witness for C5 on the empty payload `{}`. -/
theorem c5_witness :
    parse_status_response (Json.obj []) =
      Except.ok ("Информация по карте:" ++ "\n" ++
        "API не вернуло ожидаемые поля (balance/cardactive/cardblocked).") :=
  c5_no_expected_fields [] rfl rfl rfl rfl

/-- C6: `parse_status_response` fails (the `ValueError`) exactly on a
non-dict top level; every dict yields a successful report. -/
theorem c6_format_error_iff_not_mapping (data : Json) :
    (data.isObj = false →
      parse_status_response data = Except.error "Непредвиденный формат ответа API")
    ∧ (data.isObj = true →
      ∃ report, parse_status_response data = Except.ok report) := by
  cases data <;>
    exact ⟨fun h => by first | rfl | simp [Json.isObj] at h,
      fun h => by first | exact ⟨_, rfl⟩ | simp [Json.isObj] at h⟩

/-- Witness for C6 on a concrete non-dict payload. -/
theorem c6_witness :
    parse_status_response (Json.arr []) =
      Except.error "Непредвиденный формат ответа API" :=
  (c6_format_error_iff_not_mapping (Json.arr [])).1 rfl

/-- C2 counterexample: `{"error": ""}` contains a top-level `error` field,
yet `fetch_card_status` does not short-circuit — the empty string is falsy,
normalization runs and the result is not the API-error report. -/
theorem c2_counterexample :
    jsonGet (Json.obj [("error", Json.str "")]) "error" = some (Json.str "")
    ∧ fetch_card_status_body (Json.obj [("error", Json.str "")]) =
        parse_status_response (Json.obj [("error", Json.str "")])
    ∧ fetch_card_status_body (Json.obj [("error", Json.str "")]) =
        Except.ok ("Информация по карте:" ++ "\n" ++
          "API не вернуло ожидаемые поля (balance/cardactive/cardblocked).")
    ∧ ("Информация по карте:" ++ "\n" ++
        "API не вернуло ожидаемые поля (balance/cardactive/cardblocked).")
        ≠ ("Ошибка API: " ++ pyStr (Json.str "")) :=
  ⟨rfl, rfl, rfl, by decide⟩

/-- C2 as amended: a top-level `error` field with a truthy value — or,
failing that, a truthy `message` field — short-circuits normalization and
is returned as the API-error report; when both are absent or falsy the
payload goes to `parse_status_response` instead. -/
theorem c2_truthy_error_short_circuit (fs : List (String × Json)) :
    (∀ e, jsonGet (Json.obj fs) "error" = some e → jsonTruthy e = true →
      fetch_card_status_body (Json.obj fs) = Except.ok ("Ошибка API: " ++ pyStr e))
    ∧ (∀ m, optTruthy (jsonGet (Json.obj fs) "error") = false →
      jsonGet (Json.obj fs) "message" = some m → jsonTruthy m = true →
      fetch_card_status_body (Json.obj fs) = Except.ok ("Ошибка API: " ++ pyStr m))
    ∧ (optTruthy (jsonGet (Json.obj fs) "error") = false →
      optTruthy (jsonGet (Json.obj fs) "message") = false →
      fetch_card_status_body (Json.obj fs) = parse_status_response (Json.obj fs)) := by
  refine ⟨?_, ?_, ?_⟩
  · intro e he ht
    have htr : optTruthy (jsonGet (Json.obj fs) "error") = true := by
      rw [he]
      exact ht
    show (match (if optTruthy (jsonGet (Json.obj fs) "error")
        then jsonGet (Json.obj fs) "error" else jsonGet (Json.obj fs) "message") with
      | some e =>
        if jsonTruthy e then Except.ok ("Ошибка API: " ++ pyStr e)
        else parse_status_response (Json.obj fs)
      | none => parse_status_response (Json.obj fs)) = _
    rw [htr]
    simp only [if_true]
    rw [he]
    simp [ht]
  · intro m hfe hm htm
    show (match (if optTruthy (jsonGet (Json.obj fs) "error")
        then jsonGet (Json.obj fs) "error" else jsonGet (Json.obj fs) "message") with
      | some e =>
        if jsonTruthy e then Except.ok ("Ошибка API: " ++ pyStr e)
        else parse_status_response (Json.obj fs)
      | none => parse_status_response (Json.obj fs)) = _
    rw [hfe]
    simp only [Bool.false_eq_true, if_false]
    rw [hm]
    simp [htm]
  · intro hfe hfm
    show (match (if optTruthy (jsonGet (Json.obj fs) "error")
        then jsonGet (Json.obj fs) "error" else jsonGet (Json.obj fs) "message") with
      | some e =>
        if jsonTruthy e then Except.ok ("Ошибка API: " ++ pyStr e)
        else parse_status_response (Json.obj fs)
      | none => parse_status_response (Json.obj fs)) = _
    rw [hfe]
    simp only [Bool.false_eq_true, if_false]
    cases hm : jsonGet (Json.obj fs) "message" with
    | none => rfl
    | some m =>
      rw [hm] at hfm
      have : jsonTruthy m = false := hfm
      simp [this]

/-- Witness for C2 on the spec's example `{"error": "card not found"}`. -/
theorem c2_witness :
    fetch_card_status_body (Json.obj [("error", Json.str "card not found")]) =
      Except.ok ("Ошибка API: " ++ pyStr (Json.str "card not found")) :=
  (c2_truthy_error_short_circuit [("error", Json.str "card not found")]).1
    (Json.str "card not found") rfl rfl
